import Mathlib

/-!
Shallow embedding of
`src/google/cloud/iam_credentials_v1/services/iam_credentials/transports/grpc_asyncio.py`
(class `IAMCredentialsGrpcAsyncIOTransport`).

Effectful library calls (channel construction, stub registration, the
client-certificate callback) are modelled by threading an explicit `World`
that logs each allocation, so that "created at most once" is a statement
about the log.  Python dictionaries are modelled as association lists kept
in a heap inside the `World`, so that dict identity (instance `_stubs`
versus the class-level default) is expressible.
-/

/-- Errors raised by the underlying RPC/auth libraries that this file can
surface (spec section 7); the artifact itself raises nothing of its own.
`keyError` models a Python dict lookup miss. -/
inductive Err where
  | duplicateCredentialArgs : Err
  | keyError : Err
deriving DecidableEq, Repr

/-- A Python credentials value as it flows through the transport:
`pyNone` is `None`, `pyFalse` is the literal `False` that `__init__`
assigns when a channel is supplied (line 149), `obj` is a credentials
object, and `fromFile` / `adc` are the values the base constructor
resolves to (from a credentials file, or application default). -/
inductive Cred where
  | pyNone : Cred
  | pyFalse : Cred
  | obj : Nat → Cred
  | fromFile : String → Cred
  | adc : Cred
deriving DecidableEq, Repr

/-- Python truthiness of a credentials value: `None` and `False` are falsy. -/
def Cred.truthy : Cred → Bool
  | .pyNone => false
  | .pyFalse => false
  | _ => true

/-- Python truthiness of an optional string (`None` and `""` are falsy). -/
def pyStrTruthy : Option String → Bool
  | none => false
  | some s => !(s = "")

/-- PEM bytes, as handed around by the client certificate callback. -/
abbrev ByteSeq : Type := List Nat

/-- The `client_cert_source` callback: calling it yields a pair of
certificate-chain bytes and private-key bytes. -/
abbrev CertSource : Type := ByteSeq × ByteSeq

/-- SSL credentials attached to a channel: built from the callback's pair
(`grpc.ssl_channel_credentials`, lines 164-166), application default
(`SslCredentials().ssl_credentials`, line 168), or absent. -/
inductive SslCreds where
  | fromCert : ByteSeq → ByteSeq → SslCreds
  | adcSsl : SslCreds
  | noSsl : SslCreds
deriving DecidableEq, Repr

/-- The arguments with which the external `grpc_helpers_async.create_channel`
was invoked; a created channel records them. -/
structure ChannelArgs where
  target : String
  credentials : Cred
  credentials_file : Option String
  scopes : List String
  quota_project_id : Option String
  ssl_credentials : SslCreds
deriving DecidableEq, Repr

/-- A gRPC AsyncIO channel: an allocation id (distinguishing distinct
creations) plus the arguments it was created with. -/
structure Channel where
  id : Nat
  args : ChannelArgs
deriving DecidableEq, Repr

/-- A per-method call stub, as returned by `channel.unary_unary`: an
allocation id, the id of the channel it is registered on, the RPC route
string, and the serializer/deserializer names passed in. -/
structure Stub where
  id : Nat
  channelId : Nat
  route : String
  requestSerializer : String
  responseDeserializer : String
deriving DecidableEq, Repr

/-- A Python `Dict[str, Callable]` of stubs, as an insertion-ordered
association list. -/
abbrev StubDict : Type := List (String × Stub)

/-- Dict lookup (`d[k]` / `k in d`), by key equality. -/
def dictFind : StubDict → String → Option Stub
  | [], _ => none
  | (k', v) :: rest, k => if k' = k then some v else dictFind rest k

/-- Dict assignment `d[k] = v`: overwrite in place, or append a new key,
preserving insertion order as Python dicts do. -/
def dictInsert : StubDict → String → Stub → StubDict
  | [], k, v => [(k, v)]
  | (k', v') :: rest, k, v =>
      if k' = k then (k, v) :: rest else (k', v') :: dictInsert rest k v

/-- The effect world threaded through every library call: a fresh-id
counter, logs of every channel and stub ever created and of every
invocation of the client certificate callback, and a heap of stub
dictionaries (Python dict objects), addressed by index. -/
structure World where
  nextId : Nat
  createdChannels : List Channel
  createdStubs : List Stub
  certSourceCalls : Nat
  stubHeap : List StubDict
deriving DecidableEq, Repr

/-- Read the dict at heap address `i`. -/
def heapGet (w : World) (i : Nat) : StubDict :=
  w.stubHeap.getD i []

/-- Write the dict at heap address `i`. -/
def heapSet (w : World) (i : Nat) (d : StubDict) : World :=
  { w with stubHeap := w.stubHeap.set i d }

/-- Model of the external `grpc_helpers_async.create_channel`: allocates a
fresh channel recording its arguments.  Per spec section 7 the
duplicate-credential-argument misuse error is raised by the underlying
library when both a truthy credentials object and a credentials file are
passed. -/
def grpc_helpers_async_create_channel (a : ChannelArgs) (w : World) :
    Except Err (Channel × World) :=
  if a.credentials.truthy && pyStrTruthy a.credentials_file then
    .error .duplicateCredentialArgs
  else
    let ch : Channel := ⟨w.nextId, a⟩
    .ok (ch, { w with
      nextId := w.nextId + 1,
      createdChannels := w.createdChannels ++ [ch] })

/-- Model of the external `channel.unary_unary(route, request_serializer,
response_deserializer)`: registers and returns a fresh stub on the channel. -/
def Channel.unary_unary (ch : Channel) (route ser deser : String) (w : World) :
    Stub × World :=
  let s : Stub := ⟨w.nextId, ch.id, route, ser, deser⟩
  (s, { w with nextId := w.nextId + 1, createdStubs := w.createdStubs ++ [s] })

/-- Model of invoking the `client_cert_source` callback: returns its
certificate/key pair and logs the invocation. -/
def callCertSource (cs : CertSource) (w : World) : (ByteSeq × ByteSeq) × World :=
  (cs, { w with certSourceCalls := w.certSourceCalls + 1 })

/-- Modelled from the spec: `AUTH_SCOPES`, the OAuth scope list default of
the base transport class `IAMCredentialsTransport` (file
`transports/base.py`, which is not under src/); spec section 6 only calls
it "OAuth scope list", so the concrete value is a placeholder constant. -/
def AUTH_SCOPES : List String := ["https://www.googleapis.com/auth/cloud-platform"]

/-- Python `scopes or AUTH_SCOPES` (lines 89, 176, 185): `None` and the
empty list are falsy. -/
def orAuthScopes : Option (List String) → List String
  | none => AUTH_SCOPES
  | some l => if l.isEmpty then AUTH_SCOPES else l

/-- Arguments of the classmethod `create_channel` (lines 58-67), with the
source's default values; `ssl_credentials` models the `**kwargs`
forwarding used at line 175. -/
structure CreateChannelArgs where
  host : String := "iamcredentials.googleapis.com"
  credentials : Cred := .pyNone
  credentials_file : Option String := none
  scopes : Option (List String) := none
  quota_project_id : Option String := none
  ssl_credentials : SslCreds := .noSsl
deriving DecidableEq, Repr

/-- The classmethod `create_channel` (lines 58-97): substitutes the default
scopes and delegates to `grpc_helpers_async.create_channel`. -/
def create_channel (a : CreateChannelArgs) (w : World) :
    Except Err (Channel × World) :=
  grpc_helpers_async_create_channel
    ⟨a.host, a.credentials, a.credentials_file, orAuthScopes a.scopes,
      a.quota_project_id, a.ssl_credentials⟩ w

/-- Modelled from the spec: the base transport constructor
`IAMCredentialsTransport.__init__` (file `transports/base.py`, not under
src/).  Per spec sections 6-7 the credentials object and the credentials
file path are mutually exclusive, the duplicate-credential-argument error
being raised by the underlying library; otherwise the host is stored and
the credentials are resolved (from the file, or, when none are specified,
ascertained from the environment, per the src docstring lines 115-119). -/
def baseInit (host : String) (credentials : Cred)
    (credentials_file : Option String) (_scopes : List String)
    (_quota_project_id : Option String) : Except Err (String × Cred) :=
  if credentials.truthy && pyStrTruthy credentials_file then
    .error .duplicateCredentialArgs
  else
    .ok (host, resolveCred credentials credentials_file)
where
  /-- Modelled from the spec: credential resolution delegated to the auth
  library (spec section 1); file wins, else environment default when none
  given, else the object passed. -/
  resolveCred (credentials : Cred) (credentials_file : Option String) : Cred :=
    if pyStrTruthy credentials_file then .fromFile (credentials_file.getD "")
    else match credentials with
      | .pyNone => .adc
      | c => c

/-- The transport instance state after `__init__`: the stored host and
resolved credentials (set by the base constructor), the `_grpc_channel`
attribute (`none` models the attribute being unset, cf. the `hasattr`
test at line 200), and the heap address of the instance's `_stubs` dict. -/
structure IAMCredentialsGrpcAsyncIOTransport where
  _host : String
  _credentials : Cred
  _grpc_channel : Option Channel
  _stubs : Nat
deriving DecidableEq, Repr

/-- Heap address of the class-level `_stubs: Dict[str, Callable] = {}`
default (line 56): address 0 of the initial world's heap. -/
def classStubsRef : Nat := 0

/-- The world before any transport is constructed: empty logs, and the
heap holding only the class-level `_stubs` dict, which is empty. -/
def World.initial : World := ⟨0, [], [], 0, [[]]⟩

/-- Arguments of `__init__` (lines 99-110), with the source's defaults. -/
structure InitArgs where
  host : String := "iamcredentials.googleapis.com"
  credentials : Cred := .pyNone
  credentials_file : Option String := none
  scopes : Option (List String) := none
  channel : Option Channel := none
  api_mtls_endpoint : Option String := none
  client_cert_source : Option CertSource := none
  quota_project_id : Option String := none
deriving DecidableEq, Repr

/-- The tail of `__init__` (lines 180-189): run the base constructor
(line 185 passes `scopes or self.AUTH_SCOPES`), then assign a fresh empty
dict to the instance's `_stubs` attribute. -/
def initFinish (host : String) (credentials : Cred)
    (credentials_file : Option String) (scopes : Option (List String))
    (quota_project_id : Option String) (chOpt : Option Channel) (w : World) :
    Except Err (IAMCredentialsGrpcAsyncIOTransport × World) :=
  match baseInit host credentials credentials_file (orAuthScopes scopes)
      quota_project_id with
  | .error er => .error er
  | .ok hc =>
      .ok (⟨hc.1, hc.2, chOpt, w.stubHeap.length⟩,
        { w with stubHeap := w.stubHeap ++ [[]] })

/-- `__init__` (lines 99-189).  If a channel is supplied, credentials are
overwritten with `False` and the channel is stored (lines 146-152);
otherwise, if an `api_mtls_endpoint` is truthy, the host is derived from
it (`":443"` appended when it has no colon, lines 153-158), SSL
credentials are built from the `client_cert_source` callback or
application defaults (lines 160-168), and a new channel is created
(lines 170-178); in every case the base constructor then runs and a fresh
`_stubs` dict is assigned (lines 180-189). -/
def IAMCredentialsGrpcAsyncIOTransport.init (a : InitArgs) (w : World) :
    Except Err (IAMCredentialsGrpcAsyncIOTransport × World) :=
  match a.channel with
  | some ch =>
      initFinish a.host .pyFalse a.credentials_file a.scopes
        a.quota_project_id (some ch) w
  | none =>
    if pyStrTruthy a.api_mtls_endpoint then
      let e := a.api_mtls_endpoint.getD ""
      let host := if e.data.contains ':' then e else e ++ ":443"
      let sslw : SslCreds × World :=
        match a.client_cert_source with
        | some cs =>
            let pw := callCertSource cs w
            (SslCreds.fromCert pw.1.1 pw.1.2, pw.2)
        | none => (SslCreds.adcSsl, w)
      match create_channel
          ⟨host, a.credentials, a.credentials_file,
            some (orAuthScopes a.scopes), a.quota_project_id, sslw.1⟩
          sslw.2 with
      | .error er => .error er
      | .ok chw =>
          initFinish host a.credentials a.credentials_file a.scopes
            a.quota_project_id (some chw.1) chw.2
    else
      initFinish a.host a.credentials a.credentials_file a.scopes
        a.quota_project_id none w

/-- The `grpc_channel` property (lines 191-206): create a channel only if
the `_grpc_channel` attribute is unset (`hasattr` test, line 200), passing
only the stored host and credentials (lines 201-203), then return the
cached channel. -/
def IAMCredentialsGrpcAsyncIOTransport.grpc_channel
    (t : IAMCredentialsGrpcAsyncIOTransport) (w : World) :
    Except Err (Channel × IAMCredentialsGrpcAsyncIOTransport × World) :=
  match t._grpc_channel with
  | some ch => .ok (ch, t, w)
  | none =>
    match create_channel ⟨t._host, t._credentials, none, none, none, .noSsl⟩ w with
    | .error er => .error er
    | .ok chw =>
        .ok (chw.1, { t with _grpc_channel := some chw.1 }, chw.2)

/-- Python `self._stubs[key]` after the guarded insertion: a missing key
raises `KeyError`. -/
def dictGetItem (t : IAMCredentialsGrpcAsyncIOTransport) (w : World)
    (key : String) : Except Err (Stub × IAMCredentialsGrpcAsyncIOTransport × World) :=
  match dictFind (heapGet w t._stubs) key with
  | some s => .ok (s, t, w)
  | none => .error .keyError

/-- The common body of the four stub properties (e.g. lines 230-236): if
`key` is not in `self._stubs`, obtain `self.grpc_channel` (possibly
creating it lazily), register a stub under the fixed route on it and store
it in the dict; finally return `self._stubs[key]`. -/
def stubProperty (key route ser deser : String)
    (t : IAMCredentialsGrpcAsyncIOTransport) (w : World) :
    Except Err (Stub × IAMCredentialsGrpcAsyncIOTransport × World) :=
  if (dictFind (heapGet w t._stubs) key).isNone then
    match t.grpc_channel w with
    | .error er => .error er
    | .ok cw =>
        let sw := cw.1.unary_unary route ser deser cw.2.2
        let w3 := heapSet sw.2 cw.2.1._stubs
          (dictInsert (heapGet sw.2 cw.2.1._stubs) key sw.1)
        dictGetItem cw.2.1 w3 key
  else dictGetItem t w key

/-- The `generate_access_token` property (lines 208-236). -/
def IAMCredentialsGrpcAsyncIOTransport.generate_access_token
    (t : IAMCredentialsGrpcAsyncIOTransport) (w : World) :
    Except Err (Stub × IAMCredentialsGrpcAsyncIOTransport × World) :=
  stubProperty "generate_access_token"
    "/google.iam.credentials.v1.IAMCredentials/GenerateAccessToken"
    "GenerateAccessTokenRequest.serialize"
    "GenerateAccessTokenResponse.deserialize" t w

/-- The `generate_id_token` property (lines 238-265). -/
def IAMCredentialsGrpcAsyncIOTransport.generate_id_token
    (t : IAMCredentialsGrpcAsyncIOTransport) (w : World) :
    Except Err (Stub × IAMCredentialsGrpcAsyncIOTransport × World) :=
  stubProperty "generate_id_token"
    "/google.iam.credentials.v1.IAMCredentials/GenerateIdToken"
    "GenerateIdTokenRequest.serialize"
    "GenerateIdTokenResponse.deserialize" t w

/-- The `sign_blob` property (lines 267-292). -/
def IAMCredentialsGrpcAsyncIOTransport.sign_blob
    (t : IAMCredentialsGrpcAsyncIOTransport) (w : World) :
    Except Err (Stub × IAMCredentialsGrpcAsyncIOTransport × World) :=
  stubProperty "sign_blob"
    "/google.iam.credentials.v1.IAMCredentials/SignBlob"
    "SignBlobRequest.serialize"
    "SignBlobResponse.deserialize" t w

/-- The `sign_jwt` property (lines 294-319). -/
def IAMCredentialsGrpcAsyncIOTransport.sign_jwt
    (t : IAMCredentialsGrpcAsyncIOTransport) (w : World) :
    Except Err (Stub × IAMCredentialsGrpcAsyncIOTransport × World) :=
  stubProperty "sign_jwt"
    "/google.iam.credentials.v1.IAMCredentials/SignJwt"
    "SignJwtRequest.serialize"
    "SignJwtResponse.deserialize" t w

/-- The four exposed methods, to quantify over them. -/
inductive Meth where
  | generateAccessToken : Meth
  | generateIdToken : Meth
  | signBlob : Meth
  | signJwt : Meth
deriving DecidableEq, Repr

/-- The `_stubs` cache key of each method (its method name). -/
def Meth.key : Meth → String
  | .generateAccessToken => "generate_access_token"
  | .generateIdToken => "generate_id_token"
  | .signBlob => "sign_blob"
  | .signJwt => "sign_jwt"

/-- The fixed fully-qualified RPC route of each method. -/
def Meth.route : Meth → String
  | .generateAccessToken => "/google.iam.credentials.v1.IAMCredentials/GenerateAccessToken"
  | .generateIdToken => "/google.iam.credentials.v1.IAMCredentials/GenerateIdToken"
  | .signBlob => "/google.iam.credentials.v1.IAMCredentials/SignBlob"
  | .signJwt => "/google.iam.credentials.v1.IAMCredentials/SignJwt"

/-- Dispatch to the corresponding property of the transport. -/
def Meth.call : Meth → IAMCredentialsGrpcAsyncIOTransport → World →
    Except Err (Stub × IAMCredentialsGrpcAsyncIOTransport × World)
  | .generateAccessToken => IAMCredentialsGrpcAsyncIOTransport.generate_access_token
  | .generateIdToken => IAMCredentialsGrpcAsyncIOTransport.generate_id_token
  | .signBlob => IAMCredentialsGrpcAsyncIOTransport.sign_blob
  | .signJwt => IAMCredentialsGrpcAsyncIOTransport.sign_jwt

/-- Request serializer name of each method. -/
def Meth.reqSer : Meth → String
  | .generateAccessToken => "GenerateAccessTokenRequest.serialize"
  | .generateIdToken => "GenerateIdTokenRequest.serialize"
  | .signBlob => "SignBlobRequest.serialize"
  | .signJwt => "SignJwtRequest.serialize"

/-- Response deserializer name of each method. -/
def Meth.respDeser : Meth → String
  | .generateAccessToken => "GenerateAccessTokenResponse.deserialize"
  | .generateIdToken => "GenerateIdTokenResponse.deserialize"
  | .signBlob => "SignBlobResponse.deserialize"
  | .signJwt => "SignJwtResponse.deserialize"

/-- The channel that a lazy `grpc_channel` read creates: target is the
stored host, credentials the stored credentials, everything else at the
classmethod defaults. -/
def lazyChannel (t : IAMCredentialsGrpcAsyncIOTransport) (w : World) : Channel :=
  ⟨w.nextId, ⟨t._host, t._credentials, none, AUTH_SCOPES, none, .noSsl⟩⟩

/-- The host the mutual-TLS branch of `__init__` connects to (lines
154-158): the endpoint verbatim when it contains a colon, else with
`":443"` appended. -/
def mtlsHost (a : InitArgs) : String :=
  if (a.api_mtls_endpoint.getD "").data.contains ':' then a.api_mtls_endpoint.getD ""
  else a.api_mtls_endpoint.getD "" ++ ":443"

/-- The SSL credentials the mutual-TLS branch builds (lines 160-168). -/
def mtlsSsl (a : InitArgs) : SslCreds :=
  match a.client_cert_source with
  | some cs => .fromCert cs.1 cs.2
  | none => .adcSsl

/-- The world after the mutual-TLS branch's optional callback invocation. -/
def mtlsWorld1 (a : InitArgs) (w : World) : World :=
  match a.client_cert_source with
  | some _ => { w with certSourceCalls := w.certSourceCalls + 1 }
  | none => w

/-- The channel the mutual-TLS branch creates (lines 170-178). -/
def mtlsChannel (a : InitArgs) (w : World) : Channel :=
  ⟨w.nextId, ⟨mtlsHost a, a.credentials, a.credentials_file,
    orAuthScopes (some (orAuthScopes a.scopes)), a.quota_project_id, mtlsSsl a⟩⟩

/-- Well-formedness of an instance's stub cache: whatever is cached under a
method's name was registered under that method's fixed route with its
serializers. -/
def StubsWF (t : IAMCredentialsGrpcAsyncIOTransport) (w : World) : Prop :=
  ∀ m : Meth, ∀ s : Stub, dictFind (heapGet w t._stubs) m.key = some s →
    s.route = m.route

theorem Meth.call_eq (m : Meth) :
    m.call = stubProperty m.key m.route m.reqSer m.respDeser := by
  cases m <;> rfl

theorem Meth.key_injective (m m' : Meth) (h : m.key = m'.key) : m = m' := by
  cases m <;> cases m' <;> first | rfl | (exact absurd h (by decide))

theorem dictFind_insert_self (d : StubDict) (k : String) (v : Stub) :
    dictFind (dictInsert d k v) k = some v := by
  induction d with
  | nil => simp [dictInsert, dictFind]
  | cons p rest ih =>
      obtain ⟨k', v'⟩ := p
      by_cases h : k' = k
      · simp [dictInsert, dictFind, h]
      · simp [dictInsert, dictFind, h, ih]

theorem dictFind_insert_ne (d : StubDict) (k k₂ : String) (v : Stub)
    (h : k ≠ k₂) : dictFind (dictInsert d k v) k₂ = dictFind d k₂ := by
  induction d with
  | nil => simp [dictInsert, dictFind, h]
  | cons p rest ih =>
      obtain ⟨k', v'⟩ := p
      by_cases h' : k' = k
      · subst h'; simp [dictInsert, dictFind, h]
      · by_cases h2 : k' = k₂ <;>
          simp [dictInsert, dictFind, h', h2, ih, Ne.symm h]

theorem heapGet_heapSet_self (w : World) (i : Nat) (d : StubDict)
    (h : i < w.stubHeap.length) : heapGet (heapSet w i d) i = d := by
  simp [heapGet, heapSet, List.getD_eq_getElem?_getD,
    List.getElem?_set_eq_of_lt d h]

theorem heapGet_heapSet_ne (w : World) (i j : Nat) (d : StubDict)
    (h : i ≠ j) : heapGet (heapSet w i d) j = heapGet w j := by
  simp [heapGet, heapSet, List.getD_eq_getElem?_getD, List.getElem?_set_ne h]

theorem heapSet_length (w : World) (i : Nat) (d : StubDict) :
    (heapSet w i d).stubHeap.length = w.stubHeap.length := by
  simp [heapSet]

theorem heapGet_append_self (w : World) :
    heapGet { w with stubHeap := w.stubHeap ++ [[]] } w.stubHeap.length = [] := by
  simp [heapGet, List.getD_eq_getElem?_getD, List.getElem?_concat_length]

theorem heapGet_append_lt (w : World) (j : Nat) (h : j < w.stubHeap.length) :
    heapGet { w with stubHeap := w.stubHeap ++ [[]] } j = heapGet w j := by
  simp only [heapGet, List.getD_eq_getElem?_getD]
  rw [List.getElem?_append]
  simp [h]

theorem grpc_channel_spec (t : IAMCredentialsGrpcAsyncIOTransport) (w : World) :
    ∃ ch t' w', t.grpc_channel w = .ok (ch, t', w') ∧
      t'._grpc_channel = some ch ∧
      t'._stubs = t._stubs ∧ t'._host = t._host ∧
      t'._credentials = t._credentials ∧
      w'.stubHeap = w.stubHeap ∧
      w'.createdStubs = w.createdStubs ∧
      w'.certSourceCalls = w.certSourceCalls ∧
      w'.createdChannels.length ≤ w.createdChannels.length + 1 ∧
      (∀ c, t._grpc_channel = some c → c = ch ∧ t' = t ∧ w' = w) ∧
      (t._grpc_channel = none →
        w'.createdChannels = w.createdChannels ++ [ch] ∧
        ch.args = ⟨t._host, t._credentials, none, AUTH_SCOPES, none, .noSsl⟩) := by
  cases hgc : t._grpc_channel with
  | some ch =>
      have hres : t.grpc_channel w = .ok (ch, t, w) := by
        simp [IAMCredentialsGrpcAsyncIOTransport.grpc_channel, hgc]
      refine ⟨ch, t, w, hres, hgc, rfl, rfl, rfl, rfl, rfl, rfl, Nat.le_succ _,
        ?_, ?_⟩
      · intro c hc
        cases hc
        exact ⟨rfl, rfl, rfl⟩
      · intro h; exact Option.noConfusion h
  | none =>
      have hres : t.grpc_channel w = .ok (lazyChannel t w,
          { t with _grpc_channel := some (lazyChannel t w) },
          { w with
            nextId := w.nextId + 1,
            createdChannels := w.createdChannels ++ [lazyChannel t w] }) := by
        simp [IAMCredentialsGrpcAsyncIOTransport.grpc_channel, hgc,
          create_channel, grpc_helpers_async_create_channel, pyStrTruthy,
          orAuthScopes, lazyChannel]
      refine ⟨lazyChannel t w, _, _, hres, rfl, rfl, rfl, rfl, rfl, rfl, rfl,
        ?_, ?_, ?_⟩
      · simp
      · intro c hc; exact Option.noConfusion hc
      · intro _; exact ⟨rfl, rfl⟩

theorem stubProperty_hit (key route ser deser : String)
    (t : IAMCredentialsGrpcAsyncIOTransport) (w : World) (s : Stub)
    (h : dictFind (heapGet w t._stubs) key = some s) :
    stubProperty key route ser deser t w = .ok (s, t, w) := by
  simp [stubProperty, dictGetItem, h]

theorem stubProperty_miss (key route ser deser : String)
    (t : IAMCredentialsGrpcAsyncIOTransport) (w : World)
    (hmiss : dictFind (heapGet w t._stubs) key = none)
    (href : t._stubs < w.stubHeap.length) :
    ∃ s t' w', stubProperty key route ser deser t w = .ok (s, t', w') ∧
      s.route = route ∧ s.requestSerializer = ser ∧
      s.responseDeserializer = deser ∧
      t'._stubs = t._stubs ∧ t'._host = t._host ∧
      t'._credentials = t._credentials ∧
      (∃ ch, t'._grpc_channel = some ch ∧ s.channelId = ch.id) ∧
      heapGet w' t'._stubs = dictInsert (heapGet w t._stubs) key s ∧
      (∀ j, j ≠ t._stubs → heapGet w' j = heapGet w j) ∧
      w'.stubHeap.length = w.stubHeap.length ∧
      w'.createdStubs = w.createdStubs ++ [s] ∧
      w'.certSourceCalls = w.certSourceCalls ∧
      w'.createdChannels.length ≤ w.createdChannels.length + 1 := by
  obtain ⟨ch, t1, w1, hok, hch, hstubs, hhost, hcred, hheap, hcs, hcert, hlen,
    hsome, hnone⟩ := grpc_channel_spec t w
  have href1 : t1._stubs < w1.stubHeap.length := by
    rw [hstubs, hheap]; exact href
  have hGw1 : heapGet w1 t1._stubs = heapGet w t._stubs := by
    rw [hstubs]; simp [heapGet, hheap]
  have hres : stubProperty key route ser deser t w =
      dictGetItem t1
        (heapSet
          { w1 with
            nextId := w1.nextId + 1,
            createdStubs :=
              w1.createdStubs ++ [⟨w1.nextId, ch.id, route, ser, deser⟩] }
          t1._stubs
          (dictInsert (heapGet w1 t1._stubs) key
            ⟨w1.nextId, ch.id, route, ser, deser⟩))
        key := by
    have hm2 : dictFind (w.stubHeap[t._stubs]?.getD []) key = none := by
      simpa [heapGet] using hmiss
    simp [stubProperty, hm2, hok, Channel.unary_unary, heapGet]
  have hsetGet : heapGet
      (heapSet
        { w1 with
          nextId := w1.nextId + 1,
          createdStubs :=
            w1.createdStubs ++ [⟨w1.nextId, ch.id, route, ser, deser⟩] }
        t1._stubs
        (dictInsert (heapGet w1 t1._stubs) key
          ⟨w1.nextId, ch.id, route, ser, deser⟩))
      t1._stubs =
      dictInsert (heapGet w1 t1._stubs) key
        ⟨w1.nextId, ch.id, route, ser, deser⟩ :=
    heapGet_heapSet_self _ _ _ href1
  have hfin : stubProperty key route ser deser t w =
      .ok (⟨w1.nextId, ch.id, route, ser, deser⟩, t1,
        heapSet
          { w1 with
            nextId := w1.nextId + 1,
            createdStubs :=
              w1.createdStubs ++ [⟨w1.nextId, ch.id, route, ser, deser⟩] }
          t1._stubs
          (dictInsert (heapGet w1 t1._stubs) key
            ⟨w1.nextId, ch.id, route, ser, deser⟩)) := by
    rw [hres]
    simp [dictGetItem, hsetGet, dictFind_insert_self]
  refine ⟨_, _, _, hfin, rfl, rfl, rfl, hstubs, hhost, hcred,
    ⟨ch, hch, rfl⟩, ?_, ?_, ?_, ?_, ?_, ?_⟩
  · rw [hsetGet, hGw1]
  · intro j hj
    rw [heapGet_heapSet_ne]
    · simp [heapGet, hheap]
    · rw [hstubs]; exact fun h => hj h.symm
  · rw [heapSet_length]; simp [hheap]
  · simp [heapSet, hcs]
  · simp [heapSet, hcert]
  · simpa [heapSet] using hlen

theorem init_channel_eq (a : InitArgs) (w : World) (ch : Channel)
    (hch : a.channel = some ch) :
    IAMCredentialsGrpcAsyncIOTransport.init a w =
      .ok (⟨a.host, baseInit.resolveCred .pyFalse a.credentials_file, some ch,
          w.stubHeap.length⟩,
        { w with stubHeap := w.stubHeap ++ [[]] }) := by
  simp [IAMCredentialsGrpcAsyncIOTransport.init, hch, initFinish, baseInit,
    Cred.truthy]

theorem init_dup_error (a : InitArgs) (w : World)
    (hch : a.channel = none)
    (hdup : (a.credentials.truthy && pyStrTruthy a.credentials_file) = true) :
    IAMCredentialsGrpcAsyncIOTransport.init a w =
      .error .duplicateCredentialArgs := by
  by_cases he : pyStrTruthy a.api_mtls_endpoint = true
  · cases hcs : a.client_cert_source <;>
      simp [IAMCredentialsGrpcAsyncIOTransport.init, hch, he, hdup, hcs,
        create_channel, grpc_helpers_async_create_channel, callCertSource]
  · simp [IAMCredentialsGrpcAsyncIOTransport.init, hch, he, initFinish,
      baseInit, hdup]

theorem init_plain_eq (a : InitArgs) (w : World)
    (hch : a.channel = none)
    (he : pyStrTruthy a.api_mtls_endpoint = false)
    (hnodup : (a.credentials.truthy && pyStrTruthy a.credentials_file) = false) :
    IAMCredentialsGrpcAsyncIOTransport.init a w =
      .ok (⟨a.host, baseInit.resolveCred a.credentials a.credentials_file,
          none, w.stubHeap.length⟩,
        { w with stubHeap := w.stubHeap ++ [[]] }) := by
  simp [IAMCredentialsGrpcAsyncIOTransport.init, hch, he, initFinish,
    baseInit, hnodup]

theorem init_mtls_eq (a : InitArgs) (w : World)
    (hch : a.channel = none)
    (he : pyStrTruthy a.api_mtls_endpoint = true)
    (hnodup : (a.credentials.truthy && pyStrTruthy a.credentials_file) = false) :
    IAMCredentialsGrpcAsyncIOTransport.init a w =
      .ok (⟨mtlsHost a, baseInit.resolveCred a.credentials a.credentials_file,
          some (mtlsChannel a w), w.stubHeap.length⟩,
        { w with
          nextId := w.nextId + 1,
          createdChannels := w.createdChannels ++ [mtlsChannel a w],
          certSourceCalls := (mtlsWorld1 a w).certSourceCalls,
          stubHeap := w.stubHeap ++ [[]] }) := by
  cases hcs : a.client_cert_source with
  | none =>
      simp [IAMCredentialsGrpcAsyncIOTransport.init, hch, he, hnodup, hcs,
        initFinish, baseInit, create_channel, grpc_helpers_async_create_channel,
        mtlsHost, mtlsChannel, mtlsSsl, mtlsWorld1, callCertSource]
  | some cs =>
      simp [IAMCredentialsGrpcAsyncIOTransport.init, hch, he, hnodup, hcs,
        initFinish, baseInit, create_channel, grpc_helpers_async_create_channel,
        mtlsHost, mtlsChannel, mtlsSsl, mtlsWorld1, callCertSource]

theorem init_stubs_spec (a : InitArgs) (w : World)
    (t : IAMCredentialsGrpcAsyncIOTransport) (w' : World)
    (h : IAMCredentialsGrpcAsyncIOTransport.init a w = .ok (t, w')) :
    t._stubs = w.stubHeap.length ∧ w'.stubHeap = w.stubHeap ++ [[]] := by
  cases hch : a.channel with
  | some ch =>
      rw [init_channel_eq a w ch hch] at h
      simp only [Except.ok.injEq, Prod.mk.injEq] at h
      obtain ⟨h1, h2⟩ := h
      constructor
      · rw [← h1]
      · rw [← h2]
  | none =>
      by_cases hdup : (a.credentials.truthy && pyStrTruthy a.credentials_file) = true
      · rw [init_dup_error a w hch hdup] at h
        cases h
      · have hnodup := eq_false_of_ne_true hdup
        by_cases he : pyStrTruthy a.api_mtls_endpoint = true
        · rw [init_mtls_eq a w hch he hnodup] at h
          simp only [Except.ok.injEq, Prod.mk.injEq] at h
          obtain ⟨h1, h2⟩ := h
          constructor
          · rw [← h1]
          · rw [← h2]
        · have he' := eq_false_of_ne_true he
          rw [init_plain_eq a w hch he' hnodup] at h
          simp only [Except.ok.injEq, Prod.mk.injEq] at h
          obtain ⟨h1, h2⟩ := h
          constructor
          · rw [← h1]
          · rw [← h2]

/-- C1: for every instance and each of the four method names, the stub
callable is created at most once, on the first access of the property, is
stored in the `_stubs` cache under the method name, and every later access
returns the same cached callable without creating a new one. -/
theorem stub_created_once_and_cached (m : Meth)
    (t : IAMCredentialsGrpcAsyncIOTransport) (w : World)
    (href : t._stubs < w.stubHeap.length) :
    ∃ s t' w', m.call t w = .ok (s, t', w') ∧
      dictFind (heapGet w' t'._stubs) m.key = some s ∧
      t'._stubs = t._stubs ∧
      w'.stubHeap.length = w.stubHeap.length ∧
      (dictFind (heapGet w t._stubs) m.key = none →
        w'.createdStubs = w.createdStubs ++ [s]) ∧
      (∀ s₀, dictFind (heapGet w t._stubs) m.key = some s₀ →
        s = s₀ ∧ t' = t ∧ w' = w) ∧
      m.call t' w' = .ok (s, t', w') := by
  rw [Meth.call_eq]
  cases hfind : dictFind (heapGet w t._stubs) m.key with
  | some s0 =>
      have h := stubProperty_hit m.key m.route m.reqSer m.respDeser t w s0 hfind
      exact ⟨s0, t, w, h, hfind, rfl, rfl,
        fun hc => Option.noConfusion hc,
        fun s₀ h0 => by cases h0; exact ⟨rfl, rfl, rfl⟩, h⟩
  | none =>
      obtain ⟨s, t', w', hok, _, _, _, hstubs, _, _, _, hstore, _, hlen,
        hcreated, _, _⟩ :=
        stubProperty_miss m.key m.route m.reqSer m.respDeser t w hfind href
      have hfind2 : dictFind (heapGet w' t'._stubs) m.key = some s := by
        rw [hstore]; exact dictFind_insert_self ..
      have h2 := stubProperty_hit m.key m.route m.reqSer m.respDeser t' w' s hfind2
      exact ⟨s, t', w', hok, hfind2, hstubs, hlen, fun _ => hcreated,
        fun s₀ h0 => Option.noConfusion h0, h2⟩

/-- C1 witness: a concrete first and second access of `sign_jwt`. -/
theorem stub_created_once_and_cached_witness : ∃ s t' w',
    Meth.call .signJwt ⟨"h", Cred.adc, none, 0⟩ World.initial = .ok (s, t', w') ∧
    Meth.call .signJwt t' w' = .ok (s, t', w') := by
  obtain ⟨s, t', w', hok, _, _, _, _, _, h2⟩ :=
    stub_created_once_and_cached .signJwt ⟨"h", Cred.adc, none, 0⟩
      World.initial (by decide)
  exact ⟨s, t', w', hok, h2⟩

/-- C2: a gRPC channel is created at most once per instance: a stored
channel (supplied or built at construction) is returned as-is by every
`grpc_channel` read, a lazy first read stores its channel so that every
later read returns it without constructing another, construction with a
supplied channel creates none, and mutual-TLS construction creates exactly
the one it stores. -/
theorem channel_created_at_most_once (a : InitArgs)
    (t : IAMCredentialsGrpcAsyncIOTransport) (w wi : World) :
    (∀ ch, t._grpc_channel = some ch → t.grpc_channel w = .ok (ch, t, w)) ∧
    (∀ c t' w', t.grpc_channel w = .ok (c, t', w') →
      t'.grpc_channel w' = .ok (c, t', w') ∧
      w'.createdChannels.length ≤ w.createdChannels.length + 1) ∧
    (∀ ch t0 w0, a.channel = some ch →
      IAMCredentialsGrpcAsyncIOTransport.init a wi = .ok (t0, w0) →
      t0._grpc_channel = some ch ∧ w0.createdChannels = wi.createdChannels) ∧
    (∀ t0 w0, a.channel = none → pyStrTruthy a.api_mtls_endpoint = true →
      IAMCredentialsGrpcAsyncIOTransport.init a wi = .ok (t0, w0) →
      ∃ ch, t0._grpc_channel = some ch ∧
        w0.createdChannels = wi.createdChannels ++ [ch]) := by
  refine ⟨?_, ?_, ?_, ?_⟩
  · intro ch h
    simp [IAMCredentialsGrpcAsyncIOTransport.grpc_channel, h]
  · intro c t' w' h
    obtain ⟨ch1, t1, w1, hok, hch, _, _, _, _, _, _, hlen, _, _⟩ :=
      grpc_channel_spec t w
    rw [hok] at h
    simp only [Except.ok.injEq, Prod.mk.injEq] at h
    obtain ⟨hc, ht, hw⟩ := h
    subst hc; subst ht; subst hw
    exact ⟨by simp [IAMCredentialsGrpcAsyncIOTransport.grpc_channel, hch], hlen⟩
  · intro ch t0 w0 hch hinit
    rw [init_channel_eq a wi ch hch] at hinit
    simp only [Except.ok.injEq, Prod.mk.injEq] at hinit
    obtain ⟨h1, h2⟩ := hinit
    exact ⟨by rw [← h1], by rw [← h2]⟩
  · intro t0 w0 hch he hinit
    by_cases hdup : (a.credentials.truthy && pyStrTruthy a.credentials_file) = true
    · rw [init_dup_error a wi hch hdup] at hinit
      cases hinit
    · have hnodup := eq_false_of_ne_true hdup
      rw [init_mtls_eq a wi hch he hnodup] at hinit
      simp only [Except.ok.injEq, Prod.mk.injEq] at hinit
      obtain ⟨h1, h2⟩ := hinit
      exact ⟨mtlsChannel a wi, by rw [← h1], by rw [← h2]⟩

/-- C2 witness: a transport holding a concrete channel returns it without
creating another. -/
theorem channel_created_at_most_once_witness :
    IAMCredentialsGrpcAsyncIOTransport.grpc_channel
      ⟨"h", Cred.adc, some ⟨0, ⟨"h", Cred.adc, none, [], none, .noSsl⟩⟩, 0⟩
      World.initial =
    .ok (⟨0, ⟨"h", Cred.adc, none, [], none, .noSsl⟩⟩,
      ⟨"h", Cred.adc, some ⟨0, ⟨"h", Cred.adc, none, [], none, .noSsl⟩⟩, 0⟩,
      World.initial) :=
  (channel_created_at_most_once {}
    ⟨"h", Cred.adc, some ⟨0, ⟨"h", Cred.adc, none, [], none, .noSsl⟩⟩, 0⟩
    World.initial World.initial).1
    ⟨0, ⟨"h", Cred.adc, none, [], none, .noSsl⟩⟩ rfl

/-- C3: each method's callable is bound to its fixed fully-qualified RPC
route string (for `generate_access_token`,
`/google.iam.credentials.v1.IAMCredentials/GenerateAccessToken`, and
analogously for the other three) and registered on the instance's channel;
construction establishes the cache invariant and every access preserves
it. -/
theorem stub_routes (m : Meth) (t : IAMCredentialsGrpcAsyncIOTransport)
    (w : World) (href : t._stubs < w.stubHeap.length) (hwf : StubsWF t w) :
    (∀ a wi t0 w0, IAMCredentialsGrpcAsyncIOTransport.init a wi = .ok (t0, w0) →
      StubsWF t0 w0) ∧
    ∃ s t' w', m.call t w = .ok (s, t', w') ∧
      s.route = m.route ∧
      (dictFind (heapGet w t._stubs) m.key = none →
        ∃ ch, t'._grpc_channel = some ch ∧ s.channelId = ch.id) ∧
      StubsWF t' w' := by
  constructor
  · intro a wi t0 w0 hinit
    obtain ⟨h1, h2⟩ := init_stubs_spec a wi t0 w0 hinit
    intro m' s' hfind
    rw [h1] at hfind
    have : heapGet w0 wi.stubHeap.length = [] := by
      simp [heapGet, h2, List.getD_eq_getElem?_getD, List.getElem?_concat_length]
    rw [this] at hfind
    cases hfind
  · rw [Meth.call_eq]
    cases hfind : dictFind (heapGet w t._stubs) m.key with
    | some s0 =>
        have h := stubProperty_hit m.key m.route m.reqSer m.respDeser t w s0 hfind
        exact ⟨s0, t, w, h, hwf m s0 hfind,
          fun hc => Option.noConfusion hc, hwf⟩
    | none =>
        obtain ⟨s, t', w', hok, hroute, _, _, hstubs, _, _, hchan, hstore, _,
          _, _, _, _⟩ :=
          stubProperty_miss m.key m.route m.reqSer m.respDeser t w hfind href
        refine ⟨s, t', w', hok, hroute, fun _ => hchan, ?_⟩
        intro m' s' hfind'
        rw [hstore] at hfind'
        by_cases hm : m' = m
        · subst hm
          rw [dictFind_insert_self] at hfind'
          cases hfind'
          exact hroute
        · rw [dictFind_insert_ne _ _ _ _
            (fun hkey => hm (Meth.key_injective m' m hkey.symm))] at hfind'
          exact hwf m' s' hfind'

/-- C3 witness: a concrete access of `generate_access_token` yields a stub
bound to the GenerateAccessToken route. -/
theorem stub_routes_witness : ∃ s t' w',
    Meth.call .generateAccessToken ⟨"h", Cred.adc, none, 0⟩ World.initial =
      .ok (s, t', w') ∧
    s.route = "/google.iam.credentials.v1.IAMCredentials/GenerateAccessToken" := by
  obtain ⟨_, s, t', w', hok, hroute, _, _⟩ :=
    stub_routes .generateAccessToken ⟨"h", Cred.adc, none, 0⟩ World.initial
      (by decide)
      (by intro m s h; simp [heapGet, World.initial, dictFind] at h)
  exact ⟨s, t', w', hok, hroute⟩

/-- C4: constructed, or `create_channel` called, without an explicit host
argument, the target host used is `iamcredentials.googleapis.com`: that
string is the declared default of both, a `create_channel` call at the
default host creates a channel targeting it, and a default-host
construction (no channel, no mTLS endpoint) stores it as `_host` and lazily
creates a channel targeting it. -/
theorem default_target_host (a : InitArgs) (ca : CreateChannelArgs) (w : World) :
    ({} : InitArgs).host = "iamcredentials.googleapis.com" ∧
    ({} : CreateChannelArgs).host = "iamcredentials.googleapis.com" ∧
    (∀ ch w', ca.host = "iamcredentials.googleapis.com" →
      create_channel ca w = .ok (ch, w') →
      ch.args.target = "iamcredentials.googleapis.com") ∧
    (∀ t w', a.host = "iamcredentials.googleapis.com" → a.channel = none →
      pyStrTruthy a.api_mtls_endpoint = false →
      IAMCredentialsGrpcAsyncIOTransport.init a w = .ok (t, w') →
      t._host = "iamcredentials.googleapis.com" ∧
      ∃ ch t2 w2, t.grpc_channel w' = .ok (ch, t2, w2) ∧
        ch.args.target = "iamcredentials.googleapis.com") := by
  refine ⟨rfl, rfl, ?_, ?_⟩
  · intro ch w' hhost hok
    by_cases hdup : (ca.credentials.truthy && pyStrTruthy ca.credentials_file) = true
    · simp [create_channel, grpc_helpers_async_create_channel, hdup] at hok
    · have hnodup := eq_false_of_ne_true hdup
      simp only [create_channel, grpc_helpers_async_create_channel, hnodup,
        Bool.false_eq_true, if_false, Except.ok.injEq, Prod.mk.injEq] at hok
      obtain ⟨h1, _⟩ := hok
      rw [← h1, ← hhost]
  · intro t w' hhost hch he hinit
    by_cases hdup : (a.credentials.truthy && pyStrTruthy a.credentials_file) = true
    · rw [init_dup_error a w hch hdup] at hinit
      cases hinit
    · have hnodup := eq_false_of_ne_true hdup
      rw [init_plain_eq a w hch he hnodup] at hinit
      simp only [Except.ok.injEq, Prod.mk.injEq] at hinit
      obtain ⟨h1, _⟩ := hinit
      have hth : t._host = "iamcredentials.googleapis.com" := by
        rw [← h1, ← hhost]
      have hgc : t._grpc_channel = none := by rw [← h1]
      obtain ⟨ch, t2, w2, hok, _, _, _, _, _, _, _, _, _, hnone⟩ :=
        grpc_channel_spec t w'
      obtain ⟨_, hargs⟩ := hnone hgc
      exact ⟨hth, ch, t2, w2, hok, by rw [hargs, hth]⟩

/-- C4 witness: the literal defaults, a concrete default-host
`create_channel` call and a concrete default construction. -/
theorem default_target_host_witness :
    ∃ ch w', create_channel {} World.initial = .ok (ch, w') ∧
      ch.args.target = "iamcredentials.googleapis.com" := by
  obtain ⟨_, _, h3, _⟩ :=
    default_target_host {} {} World.initial
  exact ⟨⟨0, ⟨"iamcredentials.googleapis.com", .pyNone, none, AUTH_SCOPES,
      none, .noSsl⟩⟩,
    { World.initial with
      nextId := 1,
      createdChannels := [⟨0, ⟨"iamcredentials.googleapis.com", .pyNone, none,
        AUTH_SCOPES, none, .noSsl⟩⟩] },
    rfl, h3 _ _ rfl rfl⟩

/-- C5: when both a (truthy) credentials object and a credentials file are
passed and no pre-built channel is supplied, construction surfaces the
underlying library's duplicate-credential-argument error unchanged: the
result is exactly that error, with no recovery, retry, or translation. -/
theorem duplicate_credentials_error (a : InitArgs) (w : World)
    (hch : a.channel = none)
    (hc : a.credentials.truthy = true)
    (hf : pyStrTruthy a.credentials_file = true) :
    IAMCredentialsGrpcAsyncIOTransport.init a w =
      .error .duplicateCredentialArgs :=
  init_dup_error a w hch (by rw [hc, hf]; rfl)

/-- C5 witness: a concrete construction with both a credentials object and
a credentials file. -/
theorem duplicate_credentials_error_witness :
    IAMCredentialsGrpcAsyncIOTransport.init
      { credentials := .obj 0, credentials_file := some "creds.json" }
      World.initial = .error .duplicateCredentialArgs :=
  duplicate_credentials_error
    { credentials := .obj 0, credentials_file := some "creds.json" }
    World.initial rfl rfl (by decide)

/-- C6: with no pre-built channel and a truthy `api_mtls_endpoint`, the
mutual-TLS endpoint overrides the host argument: the channel built during
construction (and the stored `_host`) target the endpoint-derived value,
and the construction's outcome is the same whatever the `host` argument. -/
theorem mtls_endpoint_overrides_host (a : InitArgs) (w : World)
    (t : IAMCredentialsGrpcAsyncIOTransport) (w' : World)
    (hch : a.channel = none) (he : pyStrTruthy a.api_mtls_endpoint = true)
    (hok : IAMCredentialsGrpcAsyncIOTransport.init a w = .ok (t, w')) :
    ∃ ch, t._grpc_channel = some ch ∧
      ch.args.target = mtlsHost a ∧
      t._host = mtlsHost a ∧
      (∀ h', IAMCredentialsGrpcAsyncIOTransport.init { a with host := h' } w =
        IAMCredentialsGrpcAsyncIOTransport.init a w) := by
  by_cases hdup : (a.credentials.truthy && pyStrTruthy a.credentials_file) = true
  · rw [init_dup_error a w hch hdup] at hok
    cases hok
  · have hnodup := eq_false_of_ne_true hdup
    rw [init_mtls_eq a w hch he hnodup] at hok
    simp only [Except.ok.injEq, Prod.mk.injEq] at hok
    obtain ⟨h1, _⟩ := hok
    refine ⟨mtlsChannel a w, by rw [← h1], rfl, by rw [← h1], ?_⟩
    intro h'
    rw [init_mtls_eq { a with host := h' } w hch he hnodup,
      init_mtls_eq a w hch he hnodup]
    rfl

/-- C6 witness: a concrete mutual-TLS construction; changing the host does
not change the outcome and the channel targets the endpoint. -/
theorem mtls_endpoint_overrides_host_witness : ∃ ch,
    (IAMCredentialsGrpcAsyncIOTransport.mk "mtls.example.com:443" Cred.adc
      (some (mtlsChannel { api_mtls_endpoint := some "mtls.example.com" }
        World.initial)) 1)._grpc_channel = some ch ∧
    ch.args.target = mtlsHost { api_mtls_endpoint := some "mtls.example.com" } := by
  have hok : IAMCredentialsGrpcAsyncIOTransport.init
      { api_mtls_endpoint := some "mtls.example.com" } World.initial =
      .ok (IAMCredentialsGrpcAsyncIOTransport.mk "mtls.example.com:443" Cred.adc
        (some (mtlsChannel { api_mtls_endpoint := some "mtls.example.com" }
          World.initial)) 1,
        { World.initial with
          nextId := 1,
          createdChannels := [mtlsChannel
            { api_mtls_endpoint := some "mtls.example.com" } World.initial],
          certSourceCalls := 0,
          stubHeap := [[], []] }) := by
    rw [init_mtls_eq { api_mtls_endpoint := some "mtls.example.com" }
      World.initial rfl (by decide) rfl]
    rfl
  obtain ⟨ch, hc1, hc2, _, _⟩ :=
    mtls_endpoint_overrides_host { api_mtls_endpoint := some "mtls.example.com" }
      World.initial _ _ rfl (by decide) hok
  exact ⟨ch, hc1, hc2⟩

/-- C7: in a mutual-TLS construction the channel's SSL credentials come
from the client certificate callback when one is provided — it is invoked
exactly once and its certificate/key byte pair is used — and from
application default SSL credentials when none is provided (with the
callback count unchanged). -/
theorem mtls_ssl_credentials (a : InitArgs) (w : World)
    (t : IAMCredentialsGrpcAsyncIOTransport) (w' : World)
    (hch : a.channel = none) (he : pyStrTruthy a.api_mtls_endpoint = true)
    (hok : IAMCredentialsGrpcAsyncIOTransport.init a w = .ok (t, w')) :
    ∃ ch, t._grpc_channel = some ch ∧
      (∀ cs, a.client_cert_source = some cs →
        ch.args.ssl_credentials = .fromCert cs.1 cs.2 ∧
        w'.certSourceCalls = w.certSourceCalls + 1) ∧
      (a.client_cert_source = none →
        ch.args.ssl_credentials = .adcSsl ∧
        w'.certSourceCalls = w.certSourceCalls) := by
  by_cases hdup : (a.credentials.truthy && pyStrTruthy a.credentials_file) = true
  · rw [init_dup_error a w hch hdup] at hok
    cases hok
  · have hnodup := eq_false_of_ne_true hdup
    rw [init_mtls_eq a w hch he hnodup] at hok
    simp only [Except.ok.injEq, Prod.mk.injEq] at hok
    obtain ⟨h1, h2⟩ := hok
    refine ⟨mtlsChannel a w, by rw [← h1], ?_, ?_⟩
    · intro cs hcs
      constructor
      · simp [mtlsChannel, mtlsSsl, hcs]
      · rw [← h2]; simp [mtlsWorld1, hcs]
    · intro hcs
      constructor
      · simp [mtlsChannel, mtlsSsl, hcs]
      · rw [← h2]; simp [mtlsWorld1, hcs]

/-- C7 witness: a concrete mutual-TLS construction with a callback: the
pair it returns becomes the SSL credentials and it is invoked once. -/
theorem mtls_ssl_credentials_witness : ∃ ch t w',
    IAMCredentialsGrpcAsyncIOTransport.init
      { api_mtls_endpoint := some "m", client_cert_source := some ([1], [2]) }
      World.initial = .ok (t, w') ∧
    t._grpc_channel = some ch ∧
    ch.args.ssl_credentials = .fromCert [1] [2] ∧
    w'.certSourceCalls = 1 := by
  have hok : IAMCredentialsGrpcAsyncIOTransport.init
      { api_mtls_endpoint := some "m", client_cert_source := some ([1], [2]) }
      World.initial =
      .ok (⟨"m:443", Cred.adc,
        some (mtlsChannel
          { api_mtls_endpoint := some "m", client_cert_source := some ([1], [2]) }
          World.initial), 1⟩,
        ⟨1, [mtlsChannel
          { api_mtls_endpoint := some "m", client_cert_source := some ([1], [2]) }
          World.initial], [], 1, [[], []]⟩) := by
    rw [init_mtls_eq
      { api_mtls_endpoint := some "m", client_cert_source := some ([1], [2]) }
      World.initial rfl (by decide) rfl]
    rfl
  obtain ⟨ch, hc1, hc2, _⟩ :=
    mtls_ssl_credentials
      { api_mtls_endpoint := some "m", client_cert_source := some ([1], [2]) }
      World.initial _ _ rfl (by decide) hok
  obtain ⟨hssl, hcalls⟩ := hc2 ([1], [2]) rfl
  exact ⟨ch, _, _, hok, hc1, hssl, hcalls⟩

/-- C8: in a mutual-TLS construction, an endpoint containing no colon gets
`":443"` appended before channel creation, and one already containing a
colon is used verbatim as the connection host. -/
theorem mtls_port_default (a : InitArgs) (w : World)
    (t : IAMCredentialsGrpcAsyncIOTransport) (w' : World)
    (hch : a.channel = none) (he : pyStrTruthy a.api_mtls_endpoint = true)
    (hok : IAMCredentialsGrpcAsyncIOTransport.init a w = .ok (t, w')) :
    ∃ ch e, a.api_mtls_endpoint = some e ∧ t._grpc_channel = some ch ∧
      (e.data.contains ':' = true → ch.args.target = e) ∧
      (e.data.contains ':' = false → ch.args.target = e ++ ":443") := by
  by_cases hdup : (a.credentials.truthy && pyStrTruthy a.credentials_file) = true
  · rw [init_dup_error a w hch hdup] at hok
    cases hok
  · have hnodup := eq_false_of_ne_true hdup
    rw [init_mtls_eq a w hch he hnodup] at hok
    simp only [Except.ok.injEq, Prod.mk.injEq] at hok
    obtain ⟨h1, _⟩ := hok
    cases hma : a.api_mtls_endpoint with
    | none => rw [hma] at he; cases he
    | some e =>
        refine ⟨mtlsChannel a w, e, rfl, by rw [← h1], ?_, ?_⟩
        · intro hcolon
          simp only [mtlsChannel, mtlsHost, hma, Option.getD_some]
          rw [if_pos hcolon]
        · intro hcolon
          simp only [mtlsChannel, mtlsHost, hma, Option.getD_some]
          rw [if_neg (by simpa using hcolon)]

/-- C8 witness: a colon-free endpoint gets `":443"` appended; the same
construction exercised at a concrete input. -/
theorem mtls_port_default_witness : ∃ ch e,
    ({ api_mtls_endpoint := some "mtls.example.com" } : InitArgs).api_mtls_endpoint
      = some e ∧
    (IAMCredentialsGrpcAsyncIOTransport.mk "mtls.example.com:443" Cred.adc
      (some (mtlsChannel { api_mtls_endpoint := some "mtls.example.com" }
        World.initial)) 1)._grpc_channel = some ch ∧
    ch.args.target = "mtls.example.com" ++ ":443" := by
  have hok : IAMCredentialsGrpcAsyncIOTransport.init
      { api_mtls_endpoint := some "mtls.example.com" } World.initial =
      .ok (IAMCredentialsGrpcAsyncIOTransport.mk "mtls.example.com:443" Cred.adc
        (some (mtlsChannel { api_mtls_endpoint := some "mtls.example.com" }
          World.initial)) 1,
        ⟨1, [mtlsChannel { api_mtls_endpoint := some "mtls.example.com" }
          World.initial], [], 0, [[], []]⟩) := by
    rw [init_mtls_eq { api_mtls_endpoint := some "mtls.example.com" }
      World.initial rfl (by decide) rfl]
    rfl
  obtain ⟨ch, e, he1, he2, _, hnocolon⟩ :=
    mtls_port_default { api_mtls_endpoint := some "mtls.example.com" }
      World.initial _ _ rfl (by decide) hok
  cases he1
  exact ⟨ch, "mtls.example.com", rfl, he2, hnocolon (by decide)⟩

/-- C9: a pre-built channel takes precedence over everything else: it is
stored as the instance's channel, the credentials argument is discarded
(the base constructor receives `False`, so the stored credentials are
resolved from `False`, independent of the credentials passed), no channel
is created and no callback invoked, and the credentials, mTLS endpoint and
certificate-source arguments have no effect on the outcome. -/
theorem prebuilt_channel_precedence (a : InitArgs) (w : World) (ch : Channel)
    (hch : a.channel = some ch) :
    ∃ t w', IAMCredentialsGrpcAsyncIOTransport.init a w = .ok (t, w') ∧
      t._grpc_channel = some ch ∧
      t._credentials = baseInit.resolveCred .pyFalse a.credentials_file ∧
      w'.createdChannels = w.createdChannels ∧
      w'.certSourceCalls = w.certSourceCalls ∧
      (∀ c' e' cs', IAMCredentialsGrpcAsyncIOTransport.init
        { a with
          credentials := c',
          api_mtls_endpoint := e',
          client_cert_source := cs' } w =
        IAMCredentialsGrpcAsyncIOTransport.init a w) := by
  refine ⟨_, _, init_channel_eq a w ch hch, rfl, rfl, rfl, rfl, ?_⟩
  intro c' e' cs'
  rw [init_channel_eq
    { a with
      credentials := c',
      api_mtls_endpoint := e',
      client_cert_source := cs' } w ch hch,
    init_channel_eq a w ch hch]

/-- C9 witness: a concrete construction with a supplied channel and a
conflicting credentials object still stores the supplied channel. -/
theorem prebuilt_channel_precedence_witness : ∃ t w',
    IAMCredentialsGrpcAsyncIOTransport.init
      { credentials := .obj 7,
        channel := some ⟨5, ⟨"x", Cred.adc, none, [], none, .noSsl⟩⟩ }
      World.initial = .ok (t, w') ∧
    t._grpc_channel = some ⟨5, ⟨"x", Cred.adc, none, [], none, .noSsl⟩⟩ ∧
    w'.createdChannels = World.initial.createdChannels := by
  obtain ⟨t, w', hok, hc1, _, hc3, _, _⟩ :=
    prebuilt_channel_precedence
      { credentials := .obj 7,
        channel := some ⟨5, ⟨"x", Cred.adc, none, [], none, .noSsl⟩⟩ }
      World.initial ⟨5, ⟨"x", Cred.adc, none, [], none, .noSsl⟩⟩ rfl
  exact ⟨t, w', hok, hc1, hc3⟩

/-- C10: every construction assigns a fresh empty dict to the instance's
`_stubs`: the new address is the end of the heap, holds the empty dict,
leaves every existing dict (the class-level default at `classStubsRef`
included) untouched, differs from the class-level dict's address, and
differs from the `_stubs` address of any instance constructed later, so no
stubs are shared between two distinct instances. -/
theorem fresh_stubs_per_instance (a a₂ : InitArgs) (w : World)
    (t : IAMCredentialsGrpcAsyncIOTransport) (w' : World)
    (hok : IAMCredentialsGrpcAsyncIOTransport.init a w = .ok (t, w')) :
    t._stubs = w.stubHeap.length ∧
    heapGet w' t._stubs = [] ∧
    (∀ j, j < w.stubHeap.length → heapGet w' j = heapGet w j) ∧
    (classStubsRef < w.stubHeap.length → t._stubs ≠ classStubsRef) ∧
    (∀ t₂ w₂, IAMCredentialsGrpcAsyncIOTransport.init a₂ w' = .ok (t₂, w₂) →
      t₂._stubs ≠ t._stubs) := by
  obtain ⟨h1, h2⟩ := init_stubs_spec a w t w' hok
  refine ⟨h1, ?_, ?_, ?_, ?_⟩
  · rw [h1]
    simp [heapGet, h2, List.getD_eq_getElem?_getD, List.getElem?_concat_length]
  · intro j hj
    simp only [heapGet, List.getD_eq_getElem?_getD, h2]
    rw [List.getElem?_append]
    simp [hj]
  · intro hcl
    rw [h1]
    omega
  · intro t₂ w₂ hok₂
    obtain ⟨h1', _⟩ := init_stubs_spec a₂ w' t₂ w₂ hok₂
    rw [h1', h1, h2]
    simp

/-- C10 witness: a concrete default construction gets a `_stubs` dict
distinct from the class-level one. -/
theorem fresh_stubs_per_instance_witness : ∃ t w',
    IAMCredentialsGrpcAsyncIOTransport.init {} World.initial = .ok (t, w') ∧
    t._stubs ≠ classStubsRef ∧ heapGet w' t._stubs = [] := by
  have hok : IAMCredentialsGrpcAsyncIOTransport.init {} World.initial =
      .ok (⟨"iamcredentials.googleapis.com", .adc, none, 1⟩,
        ⟨0, [], [], 0, [[], []]⟩) := rfl
  obtain ⟨_, hempty, _, hclass, _⟩ :=
    fresh_stubs_per_instance {} {} World.initial _ _ hok
  exact ⟨_, _, hok, hclass (by decide), hempty⟩
